import Mathlib

/-!
# Verification of the Synther holographic synthesizer engine core

A shallow embedding, in Lean 4, of the control-plane core of the
`SynthEngine` class found in `src/native/src/synth_engine.cpp` and
`src/native/src/synth_engine.h`: parameter routing (`setParameter` /
`getParameter`), MIDI event processing (including MIDI-learn and the
reserved UI channel), automation recording, preset export/import, and
the amplitude branch of the audio-analysis update.

Modelling conventions
* C++ `float` / `double` values are modelled as rationals (`ℚ`); the
  transcendental library calls (`std::exp`, `std::pow`) that feed a few
  stored values are taken as opaque rational inputs where their numeric
  value is irrelevant to every verified statement.
* `std::unordered_map` is modelled as an association list with
  insert-or-replace update and the representation invariant that keys
  are not duplicated; iteration order is the list order.
* Wall-clock reads (`std::chrono::high_resolution_clock::now()`) are
  threaded through as an explicit `now : ℚ` argument.
* `setParameter` can recurse through the XY-pad passthrough
  indirection, and the source has no self-reference guard, so the
  embedding is fuel-indexed: `none` means the call did not return
  within the given recursion budget.
* External collaborator modules (oscillators, filter, envelope, delay,
  reverb, granular synthesizer) are modelled at their setter/getter
  interface boundary, as the spec prescribes: each is a record of the
  values most recently pushed through its setters.
-/

namespace Synther

/-! ## Association-list maps (model of `std::unordered_map`) -/

/-- Lookup in an association list: first entry with the given key. -/
def alLookup {α : Type} (k : Int) : List (Int × α) → Option α
  | [] => none
  | (k', v) :: rest => if k' = k then some v else alLookup k rest

/-- Insert-or-replace, keeping the position of an existing key
(`std::unordered_map::operator[]` assignment). -/
def alInsert {α : Type} (k : Int) (v : α) : List (Int × α) → List (Int × α)
  | [] => [(k, v)]
  | (k', v') :: rest =>
    if k' = k then (k, v) :: rest else (k', v') :: alInsert k v rest

/-- Remove every entry whose mapped value equals `v` (the erase loop in
the MIDI-learn branch of `processMidiEvent`). -/
def alEraseVal (v : Int) : List (Int × Int) → List (Int × Int)
  | [] => []
  | (k, w) :: rest =>
    if w = v then alEraseVal v rest else (k, w) :: alEraseVal v rest

/-- Remove the entry with the given key (`std::unordered_map::erase`). -/
def alEraseKey {α : Type} (k : Int) : List (Int × α) → List (Int × α)
  | [] => []
  | (k', v) :: rest =>
    if k' = k then alEraseKey k rest else (k', v) :: alEraseKey k rest

/-- The keys of an association list, in order. -/
def alKeys {α : Type} (l : List (Int × α)) : List Int := l.map Prod.fst

/-- Representation invariant of every `std::unordered_map` model:
each key occurs at most once. -/
def alWF {α : Type} (l : List (Int × α)) : Prop := (alKeys l).Nodup

/-- Replace the element at a given position of a list, if it exists
(`oscillators[oscIndex]->setX(...)`). -/
def listModify {α : Type} (f : α → α) : Nat → List α → List α
  | _, [] => []
  | 0, x :: xs => f x :: xs
  | n + 1, x :: xs => x :: listModify f n xs

/-- Truncating float-to-int conversion (`static_cast<int>(value)` on a
non-negative-or-negative float truncates toward zero). -/
def cppIntCast (q : ℚ) : Int := q.num.tdiv (q.den : Int)

/-! ## SmoothedParameterF (§4.1 of the spec; `synth_engine.h` lines 175–239) -/

/-- The per-control exponential smoother `SynthEngine::SmoothedParameterF`. -/
structure SmoothedParameterF where
  currentValue : ℚ
  targetValue : ℚ
  alpha : ℚ
  deriving Repr, DecidableEq

namespace SmoothedParameterF

/-- `setTarget`: update the goal value only. -/
def setTarget (s : SmoothedParameterF) (target : ℚ) : SmoothedParameterF :=
  { s with targetValue := target }

/-- The snap epsilon `0.00001f` of `getNextValue`. -/
def epsilonF : ℚ := 1 / 100000

/-- `getNextValue`: one per-sample advance.  Returns the produced sample
together with the updated smoother state. -/
def getNextValue (s : SmoothedParameterF) : ℚ × SmoothedParameterF :=
  if |s.targetValue - s.currentValue| < epsilonF then
    (s.targetValue, { s with currentValue := s.targetValue })
  else
    let c := s.currentValue + (s.targetValue - s.currentValue) * s.alpha
    (c, { s with currentValue := c })

/-- `getCurrentValueNonSmoothed`: returns the final target. -/
def getCurrentValueNonSmoothed (s : SmoothedParameterF) : ℚ := s.targetValue

/-- `getCurrentSmoothedValue`. -/
def getCurrentSmoothedValue (s : SmoothedParameterF) : ℚ := s.currentValue

/-- `setSmoothingTime(timeMs, sr)`.  The library call
`std::exp(-1.0f / ((timeMs / 1000.0f) * sr))` is transcendental, so its
value is passed in as the opaque rational `expVal`; the surrounding
control flow (the `timeMs`/`sr` validity tests and the final clamping
of `alpha` into `[0, 1]`) is embedded exactly. -/
def setSmoothingTime (s : SmoothedParameterF) (timeMs : ℚ) (sr : Int)
    (expVal : ℚ) : SmoothedParameterF :=
  if timeMs ≤ 0 ∨ sr ≤ 0 then { s with alpha := 1 }
  else if timeMs < 1 then { s with alpha := 1 }
  else
    let a := 1 - expVal
    let a := if 1 < a then 1 else a
    let a := if a < 0 then 0 else a
    { s with alpha := a }

/-- `setCurrentAndTarget`: used at initialization to avoid a ramp-in. -/
def setCurrentAndTarget (s : SmoothedParameterF) (value : ℚ) : SmoothedParameterF :=
  { s with currentValue := value, targetValue := value }

end SmoothedParameterF

/-! ## External synthesis modules, at their setter interface boundary -/

/-- Envelope phase, as far as the engine orchestrator drives it:
`noteOn` moves it to `attack`, `noteOff` to `release`. -/
inductive EnvStage where
  | idle
  | attack
  | release
  deriving Repr, DecidableEq

/-- One oscillator slot (`Oscillator` / `synth::WavetableOscillatorImpl`),
recording the values pushed through its setters.  `isWavetable` models
the `dynamic_cast<synth::WavetableOscillatorImpl*>` test. -/
structure OscState where
  otype : Int
  frequency : ℚ
  detune : ℚ
  volume : ℚ
  pan : ℚ
  isWavetable : Bool
  selectedWavetable : Option Nat
  wavetablePosition : ℚ
  deriving Repr, DecidableEq

/-- The `Filter` module: its smoothed cutoff/resonance targets and type. -/
structure FilterState where
  cutoff : ℚ
  resonance : ℚ
  ftype : Int
  deriving Repr, DecidableEq

/-- The `Envelope` module. -/
structure EnvelopeState where
  attack : ℚ
  decay : ℚ
  sustain : ℚ
  release : ℚ
  stage : EnvStage
  noteVelocity : ℚ
  deriving Repr, DecidableEq

/-- The `Delay` effect. -/
structure DelayState where
  time : ℚ
  feedback : ℚ
  mix : ℚ
  deriving Repr, DecidableEq

/-- The `Reverb` effect. -/
structure ReverbState where
  roomSize : ℚ
  damping : ℚ
  mix : ℚ
  deriving Repr, DecidableEq

/-- The `synth::GranularSynthesizer` module. -/
structure GranularState where
  grainRate : ℚ
  grainDuration : ℚ
  position : ℚ
  pitch : ℚ
  amplitude : ℚ
  positionVar : ℚ
  pitchVar : ℚ
  durationVar : ℚ
  pan : ℚ
  panVar : ℚ
  windowType : Int
  deriving Repr, DecidableEq

/-! ## Automation data (§4.4; `synth_engine.h` lines 271–286) -/

/-- `SynthEngine::AutomationEvent`. -/
structure AutomationEvent where
  parameterId : Int
  value : ℚ
  timestamp : ℚ
  deriving Repr, DecidableEq

/-- `recordedAutomation[parameterId].push_back(ev)`:
`operator[]` creates an empty track when missing, then appends. -/
def alAppendEvent (k : Int) (ev : AutomationEvent) :
    List (Int × List AutomationEvent) → List (Int × List AutomationEvent)
  | [] => [(k, [ev])]
  | (k', tr) :: rest =>
    if k' = k then (k', tr ++ [ev]) :: rest
    else (k', tr) :: alAppendEvent k ev rest

/-- The track stored for a parameter id (empty when absent). -/
def trackOf (k : Int) (l : List (Int × List AutomationEvent)) :
    List AutomationEvent :=
  (alLookup k l).getD []

/-- Total number of recorded automation events across all tracks. -/
def totalEventCount (l : List (Int × List AutomationEvent)) : Nat :=
  (l.map (fun p => p.2.length)).sum

/-! ## Parameter identifiers (`SynthParameterId`, `synth_engine.h` 410–462) -/

namespace SynthParameterId

def masterVolume : Int := 0
def masterMute : Int := 1
def pitchBend : Int := 2
def channelAftertouch : Int := 3
def filterCutoff : Int := 10
def filterResonance : Int := 11
def filterType : Int := 12
def attackTime : Int := 20
def decayTime : Int := 21
def sustainLevel : Int := 22
def releaseTime : Int := 23
def reverbMix : Int := 30
def delayTime : Int := 31
def delayFeedback : Int := 32
def granularActive : Int := 40
def granularGrainRate : Int := 41
def granularGrainDuration : Int := 42
def granularPosition : Int := 43
def granularPitch : Int := 44
def granularAmplitude : Int := 45
def granularPositionVar : Int := 46
def granularPitchVar : Int := 47
def granularDurationVar : Int := 48
def granularPan : Int := 49
def granularPanVar : Int := 50
def granularWindowType : Int := 51
def oscillatorType : Int := 100

/-- Modelled from the spec: the two reserved "XY-pad passthrough"
identifiers used by `setParameter` (`synth_engine.cpp` lines 515 and
522).  Their declarations are not under `src/` (the header shipped in
`src/` predates the XY-pad feature), so their numeric values are
chosen in the unused gap between the granular block and the
oscillator-slot decade space; no verified statement depends on the
concrete numbers, only on their being reserved identifiers distinct
from every dispatched one. -/
def xyPadXValue : Int := 60

/-- Modelled from the spec: the Y-axis passthrough identifier; see
`xyPadXValue`. -/
def xyPadYValue : Int := 61

end SynthParameterId

/-! ## The engine state (`SynthEngine`, `synth_engine.h` lines 37–407) -/

/-- The sound-producing members of the engine — the master-volume
smoother, the master mute flag, and the owned synthesis modules —
grouped so that the parameter dispatch, which touches nothing else,
can be stated over exactly this part of the state. -/
structure ModuleRack where
  masterVolume : SmoothedParameterF
  masterMute : Bool
  oscillators : List OscState
  filter : Option FilterState
  envelope : Option EnvelopeState
  delay : Option DelayState
  reverb : Option ReverbState
  granularSynth : Option GranularState
  wavetableTableCount : Nat
  deriving Repr, DecidableEq

/-- The mutable state of the `SynthEngine` singleton.  Fields mirror the
data members of the C++ class (the sound-producing members grouped into
`modules`); mutexes and atomics vanish in this sequential model (the
spec's concurrency story is out of the shallow embedding's reach and is
not claimed here). -/
structure SynthEngine where
  initialized : Bool
  sampleRate : Int
  bufferSize : Int
  modules : ModuleRack
  activeNotes : List (Int × ℚ)
  parameterCache : List (Int × ℚ)
  midiLearnActive : Bool
  parameterIdToLearn : Int
  ccToParameterMap : List (Int × Int)
  lastCcValue : List (Int × Int)
  isRecordingAutomation : Bool
  isPlayingAutomation : Bool
  automationRecordStartTime : ℚ
  recordedAutomation : List (Int × List AutomationEvent)
  automationPlaybackIndices : List (Int × Int)
  currentUiTargetPanelId : Nat
  currentXYPadXParameterId : Int
  currentXYPadYParameterId : Int
  fftSize : Nat
  analysisReady : Bool
  amplitudeLevel : ℚ
  deriving Repr, DecidableEq

/-- Modelled from the spec: `noteToFrequency` computes
`440 * 2^((note - 69) / 12)`, which is irrational for most notes; no
verified claim inspects the frequency value, so the model keeps only
the functional dependence on the note number. -/
def noteToFrequency (note : Int) : ℚ := (note : ℚ)

/-- `SynthEngine::startMidiLearn`. -/
def startMidiLearn (st : SynthEngine) (parameterId : Int) : SynthEngine :=
  { st with parameterIdToLearn := parameterId, midiLearnActive := true }

/-- `SynthEngine::stopMidiLearn`. -/
def stopMidiLearn (st : SynthEngine) : SynthEngine :=
  { st with midiLearnActive := false, parameterIdToLearn := -1 }

/-- `SynthEngine::noteOn` (`synth_engine.cpp` lines 272–306). -/
def noteOn (st : SynthEngine) (note velocity : Int) : Bool × SynthEngine :=
  if st.initialized = false then (false, st)
  else
    let normalizedVelocity : ℚ := (velocity : ℚ) / 127
    let frequency := noteToFrequency note
    let oscs := st.modules.oscillators.map (fun o => { o with frequency := frequency })
    let env := st.modules.envelope.map (fun e =>
      { e with stage := EnvStage.attack, noteVelocity := normalizedVelocity })
    (true, { st with
      modules := { st.modules with oscillators := oscs, envelope := env }
      activeNotes := alInsert note normalizedVelocity st.activeNotes })

/-- `SynthEngine::noteOff` (`synth_engine.cpp` lines 308–346): erase the
note if present; trigger the envelope release only when a previously
active note was removed and no active notes remain. -/
def noteOff (st : SynthEngine) (note : Int) : Bool × SynthEngine :=
  if st.initialized = false then (false, st)
  else
    let noteWasActive := (alLookup note st.activeNotes).isSome
    if noteWasActive then
      let notes := alEraseKey note st.activeNotes
      let anyNotesActive := decide (notes ≠ [])
      let env :=
        if anyNotesActive = false then
          st.modules.envelope.map (fun e => { e with stage := EnvStage.release })
        else st.modules.envelope
      (true, { st with activeNotes := notes
                       modules := { st.modules with envelope := env } })
    else (true, st)

/-- The dispatch switch of `SynthEngine::setParameter`
(`synth_engine.cpp` lines 527–741) over the module rack: route a
non-passthrough identifier to the owning module's setter; `false` when
the module or slot does not exist or the identifier is unrecognized. -/
def dispatchModules (m : ModuleRack) (parameterId : Int) (value : ℚ) :
    Bool × ModuleRack :=
  if parameterId = SynthParameterId.masterVolume then
    (true, { m with masterVolume := m.masterVolume.setTarget value })
  else if parameterId = SynthParameterId.masterMute then
    (true, { m with masterMute := decide ((1 : ℚ) / 2 ≤ value) })
  else if parameterId = SynthParameterId.pitchBend then (true, m)
  else if parameterId = SynthParameterId.channelAftertouch then (true, m)
  else if parameterId = SynthParameterId.filterCutoff then
    match m.filter with
    | some f => (true, { m with filter := some { f with cutoff := value } })
    | none => (false, m)
  else if parameterId = SynthParameterId.filterResonance then
    match m.filter with
    | some f => (true, { m with filter := some { f with resonance := value } })
    | none => (false, m)
  else if parameterId = SynthParameterId.filterType then
    match m.filter with
    | some f => (true, { m with filter := some { f with ftype := cppIntCast value } })
    | none => (false, m)
  else if parameterId = SynthParameterId.attackTime then
    match m.envelope with
    | some e => (true, { m with envelope := some { e with attack := value } })
    | none => (false, m)
  else if parameterId = SynthParameterId.decayTime then
    match m.envelope with
    | some e => (true, { m with envelope := some { e with decay := value } })
    | none => (false, m)
  else if parameterId = SynthParameterId.sustainLevel then
    match m.envelope with
    | some e => (true, { m with envelope := some { e with sustain := value } })
    | none => (false, m)
  else if parameterId = SynthParameterId.releaseTime then
    match m.envelope with
    | some e => (true, { m with envelope := some { e with release := value } })
    | none => (false, m)
  else if parameterId = SynthParameterId.reverbMix then
    match m.reverb with
    | some r => (true, { m with reverb := some { r with mix := value } })
    | none => (false, m)
  else if parameterId = SynthParameterId.delayTime then
    match m.delay with
    | some d => (true, { m with delay := some { d with time := value } })
    | none => (false, m)
  else if parameterId = SynthParameterId.delayFeedback then
    match m.delay with
    | some d => (true, { m with delay := some { d with feedback := value } })
    | none => (false, m)
  else if parameterId = SynthParameterId.granularGrainRate then
    match m.granularSynth with
    | some g => (true, { m with granularSynth := some { g with grainRate := value } })
    | none => (false, m)
  else if parameterId = SynthParameterId.granularGrainDuration then
    match m.granularSynth with
    | some g => (true, { m with granularSynth := some { g with grainDuration := value } })
    | none => (false, m)
  else if parameterId = SynthParameterId.granularPosition then
    match m.granularSynth with
    | some g => (true, { m with granularSynth := some { g with position := value } })
    | none => (false, m)
  else if parameterId = SynthParameterId.granularPitch then
    match m.granularSynth with
    | some g => (true, { m with granularSynth := some { g with pitch := value } })
    | none => (false, m)
  else if parameterId = SynthParameterId.granularAmplitude then
    match m.granularSynth with
    | some g => (true, { m with granularSynth := some { g with amplitude := value } })
    | none => (false, m)
  else if parameterId = SynthParameterId.granularPositionVar then
    match m.granularSynth with
    | some g => (true, { m with granularSynth := some { g with positionVar := value } })
    | none => (false, m)
  else if parameterId = SynthParameterId.granularPitchVar then
    match m.granularSynth with
    | some g => (true, { m with granularSynth := some { g with pitchVar := value } })
    | none => (false, m)
  else if parameterId = SynthParameterId.granularDurationVar then
    match m.granularSynth with
    | some g => (true, { m with granularSynth := some { g with durationVar := value } })
    | none => (false, m)
  else if parameterId = SynthParameterId.granularPan then
    match m.granularSynth with
    | some g => (true, { m with granularSynth := some { g with pan := value } })
    | none => (false, m)
  else if parameterId = SynthParameterId.granularPanVar then
    match m.granularSynth with
    | some g => (true, { m with granularSynth := some { g with panVar := value } })
    | none => (false, m)
  else if parameterId = SynthParameterId.granularWindowType then
    match m.granularSynth with
    | some g => (true, { m with granularSynth := some { g with windowType := cppIntCast value } })
    | none => (false, m)
  else if SynthParameterId.oscillatorType ≤ parameterId ∧
      parameterId < SynthParameterId.oscillatorType + 1000 then
    let oscIndex := ((parameterId - SynthParameterId.oscillatorType).tdiv 10).toNat
    let paramOffset := (parameterId - SynthParameterId.oscillatorType).emod 10
    if oscIndex < m.oscillators.length then
      if paramOffset = 0 then
        (true, { m with oscillators :=
          (listModify (fun o => { o with otype := cppIntCast value }) oscIndex m.oscillators) })
      else if paramOffset = 1 then
        (true, { m with oscillators :=
          (listModify (fun o => { o with frequency := value }) oscIndex m.oscillators) })
      else if paramOffset = 2 then
        (true, { m with oscillators :=
          (listModify (fun o => { o with detune := value }) oscIndex m.oscillators) })
      else if paramOffset = 3 then
        (true, { m with oscillators :=
          (listModify (fun o => { o with volume := value }) oscIndex m.oscillators) })
      else if paramOffset = 4 then
        (true, { m with oscillators :=
          (listModify (fun o => { o with pan := value }) oscIndex m.oscillators) })
      else if paramOffset = 5 then
        let tableIndex := cppIntCast value
        (true, { m with oscillators :=
          (listModify (fun o =>
            if o.isWavetable then
              if 0 ≤ tableIndex ∧ tableIndex < (m.wavetableTableCount : Int) then
                { o with selectedWavetable := some tableIndex.toNat }
              else o
            else o) oscIndex m.oscillators) })
      else if paramOffset = 6 then
        (true, { m with oscillators :=
          (listModify (fun o =>
            if o.isWavetable then { o with wavetablePosition := value } else o)
            oscIndex m.oscillators) })
      else (false, m)
    else (false, m)
  else (false, m)

/-- The dispatch step of `SynthEngine::setParameter` lifted to the
whole engine state: only the module rack can change. -/
def dispatchParameter (st : SynthEngine) (parameterId : Int) (value : ℚ) :
    Bool × SynthEngine :=
  ((dispatchModules st.modules parameterId value).1,
    { st with modules := (dispatchModules st.modules parameterId value).2 })

/-- Steps 1 and 2 of `SynthEngine::setParameter` (`synth_engine.cpp`
lines 491–507): append a timestamped automation event when recording
and the call is not an automation replay, then unconditionally write
the parameter cache. -/
def setParameterPre (st : SynthEngine) (parameterId : Int) (value : ℚ)
    (fromAutomation : Bool) (now : ℚ) : SynthEngine :=
  let st1 :=
    if st.isRecordingAutomation && !fromAutomation then
      { st with recordedAutomation :=
        (alAppendEvent parameterId
          ⟨parameterId, value, now - st.automationRecordStartTime⟩
          st.recordedAutomation) }
    else st
  { st1 with parameterCache := alInsert parameterId value st1.parameterCache }

/-- `SynthEngine::setParameter` (`synth_engine.cpp` lines 485–749),
fuel-indexed because of the unguarded XY-pad passthrough recursion.
Steps, in source order: (1)–(2) `setParameterPre`; (3) resolve the
XY-pad passthrough identifiers by recursion; (4) dispatch to the
owning module. -/
def setParameterAux : Nat → SynthEngine → Int → ℚ → Bool → ℚ →
    Option (Bool × SynthEngine)
  | 0, _, _, _, _, _ => none
  | fuel + 1, st, parameterId, value, fromAutomation, now =>
    if st.initialized = false then some (false, st)
    else
      let st2 := setParameterPre st parameterId value fromAutomation now
      if parameterId = SynthParameterId.xyPadXValue then
        setParameterAux fuel st2 st2.currentXYPadXParameterId value fromAutomation now
      else if parameterId = SynthParameterId.xyPadYValue then
        setParameterAux fuel st2 st2.currentXYPadYParameterId value fromAutomation now
      else some (dispatchParameter st2 parameterId value)

/-- `SynthEngine::getParameter` (`synth_engine.cpp` lines 751–796):
cache first, then the few module target getters, then defaults. -/
def getParameter (st : SynthEngine) (parameterId : Int) : ℚ :=
  if st.initialized = false then 0
  else
    match alLookup parameterId st.parameterCache with
    | some v => v
    | none =>
      if parameterId = SynthParameterId.masterVolume then
        st.modules.masterVolume.getCurrentValueNonSmoothed
      else if parameterId = SynthParameterId.masterMute then
        if st.modules.masterMute then 1 else 0
      else if parameterId = SynthParameterId.filterCutoff then
        match st.modules.filter with
        | some f => f.cutoff
        | none => 1000
      else if parameterId = SynthParameterId.filterResonance then
        match st.modules.filter with
        | some f => f.resonance
        | none => 1 / 2
      else 0

/-- `SynthEngine::processMidiEvent` (`synth_engine.cpp` lines 348–483).
The raw bytes are masked to 8 bits (`unsigned char`).  The registered
UI-control callback is an external collaborator: invoking it does not
change engine state, so the branches that forward to it return the
state unchanged. -/
def processMidiEvent (fuel : Nat) (st : SynthEngine)
    (status data1 data2 : Nat) (now : ℚ) : Option (Bool × SynthEngine) :=
  if st.initialized = false then some (false, st)
  else
    let s := status % 256
    let d1 := data1 % 256
    let d2 := data2 % 256
    let messageType := s / 16
    let channel := s % 16
    if channel = 15 ∧ messageType = 11 then
      let ccNumber := d1
      let ccValue := d2
      if ccNumber = 32 then
        some (true, { st with currentUiTargetPanelId := ccValue % 128 })
      else if ccNumber = 0 then some (true, st)
      else if ccNumber = 109 then
        some (true, { st with
          currentUiTargetPanelId := (st.currentUiTargetPanelId + 1) % 128 })
      else if (102 ≤ ccNumber ∧ ccNumber ≤ 108) ∨ ccNumber = 110 then
        some (true, st)
      else some (true, st)
    else
      if messageType = 9 then
        some (if 0 < d2 then noteOn st (d1 : Int) (d2 : Int) else noteOff st (d1 : Int))
      else if messageType = 8 then some (noteOff st (d1 : Int))
      else if messageType = 14 then
        let bendValue : Int := ((d2 * 128 + d1 : Nat) : Int)
        let normalizedBend : ℚ := ((bendValue : ℚ) - 8192) / 8192
        setParameterAux fuel st SynthParameterId.pitchBend normalizedBend false now
      else if messageType = 13 then
        let normalizedPressure : ℚ := (d1 : ℚ) / 127
        setParameterAux fuel st SynthParameterId.channelAftertouch
          normalizedPressure false now
      else if messageType = 11 then
        let ccNumber : Int := (d1 : Int)
        let ccValue : Int := (d2 : Int)
        let normalizedCcValue : ℚ := (d2 : ℚ) / 127
        if st.midiLearnActive then
          let paramIdToMap := st.parameterIdToLearn
          if paramIdToMap ≠ -1 then
            some (true, stopMidiLearn { st with
              ccToParameterMap :=
                (alInsert ccNumber paramIdToMap (alEraseVal paramIdToMap st.ccToParameterMap))
              lastCcValue := alInsert ccNumber ccValue st.lastCcValue })
          else some (true, stopMidiLearn st)
        else
          match alLookup ccNumber st.ccToParameterMap with
          | some mappedParamId =>
            match setParameterAux fuel st mappedParamId normalizedCcValue false now with
            | none => none
            | some (_, st1) =>
              some (true, { st1 with lastCcValue := alInsert ccNumber ccValue st1.lastCcValue })
          | none =>
            if ccNumber = 7 then
              setParameterAux fuel st SynthParameterId.masterVolume
                normalizedCcValue false now
            else if ccNumber = 1 then
              setParameterAux fuel st SynthParameterId.filterCutoff
                (20 + normalizedCcValue * 19980) false now
            else some (false, st)
      else some (false, st)

/-- `SynthEngine::startAutomationRecording` (`synth_engine.cpp` 882–893). -/
def startAutomationRecording (st : SynthEngine) (now : ℚ) : SynthEngine :=
  { st with
    recordedAutomation := []
    automationPlaybackIndices := []
    isRecordingAutomation := true
    isPlayingAutomation := false
    automationRecordStartTime := now }

/-- `SynthEngine::stopAutomationRecording`. -/
def stopAutomationRecording (st : SynthEngine) : SynthEngine :=
  { st with isRecordingAutomation := false }

/-- Modelled from the spec (§4.2, §9): the XY-pad axis assignment is
itself settable (`set_xy_pad_x_parameter_ffi` in the public API header;
the FFI body is not under `src/`): store the target parameter id. -/
def setXYPadXParameter (st : SynthEngine) (parameterId : Int) : SynthEngine :=
  { st with currentXYPadXParameterId := parameterId }

/-- Modelled from the spec: Y-axis analogue of `setXYPadXParameter`. -/
def setXYPadYParameter (st : SynthEngine) (parameterId : Int) : SynthEngine :=
  { st with currentXYPadYParameterId := parameterId }

/-! ## Preset export / import (§6; `synth_engine.cpp` lines 959–1144) -/

/-- `SynthEngine::SynthPreset`, at the level of the structured document:
the JSON (de)serialization library is an external collaborator, so the
model works with the document's content. -/
structure SynthPreset where
  name : String
  parameters : List (Int × ℚ)
  midiCcMappings : List (Int × Int)
  deriving Repr, DecidableEq

/-- `SynthEngine::getCurrentPresetDataJson` (lines 959–1018): snapshot
the parameter cache and the CC mapping table into the document. -/
def getCurrentPresetData (st : SynthEngine) (name : String) : SynthPreset :=
  { name := name
    parameters := st.parameterCache
    midiCcMappings := st.ccToParameterMap }

/-- `SynthEngine::applyParameterMap` (lines 1021–1030): apply every
entry through `setParameter`, accumulating overall success. -/
def applyParameterMap (fuel : Nat) (st : SynthEngine)
    (parameters : List (Int × ℚ)) (fromPresetOrAutomation : Bool) (now : ℚ) :
    Option (Bool × SynthEngine) :=
  match parameters with
  | [] => some (true, st)
  | (k, v) :: rest =>
    match setParameterAux fuel st k v fromPresetOrAutomation now with
    | none => none
    | some (ok, st1) =>
      match applyParameterMap fuel st1 rest fromPresetOrAutomation now with
      | none => none
      | some (okRest, st2) => some (ok && okRest, st2)

/-- `SynthEngine::applyMidiMap` (lines 1033–1038): replace the CC
mapping table wholesale with the supplied map. -/
def applyMidiMap (st : SynthEngine) (midiMappings : List (Int × Int)) :
    Bool × SynthEngine :=
  (true, { st with ccToParameterMap := midiMappings })

/-- `SynthEngine::applyPresetDataJson` (lines 1041–1144) on an already
parsed document: apply the parameters via `setParameter(...,
fromAutomation := true)`, then replace the MIDI map; returns `true`
even when individual entries failed. -/
def applyPresetData (fuel : Nat) (st : SynthEngine) (preset : SynthPreset)
    (now : ℚ) : Option (Bool × SynthEngine) :=
  match applyParameterMap fuel st preset.parameters true now with
  | none => none
  | some (_, st1) =>
    let (_, st2) := applyMidiMap st1 preset.midiCcMappings
    some (true, st2)

/-! ## Audio analysis, amplitude branch (§4.5; lines 1229–1271, 1336) -/

/-- Mono mix of frame `i` of an interleaved output block: the raw
sample for one channel, the average of the first two channels
otherwise (`updateAudioAnalysis`, lines 1263–1265). -/
def monoMixSample (buffer : List ℚ) (numChannels : Nat) (i : Nat) : ℚ :=
  if numChannels = 1 then buffer.getD i 0
  else (buffer.getD (i * numChannels) 0 + buffer.getD (i * numChannels + 1) 0) / 2

/-- The peak-tracking loop of `updateAudioAnalysis` (lines 1262–1270):
running maximum of the absolute mono-mixed samples, starting at 0. -/
def blockPeakAmplitude (buffer : List ℚ) (numFrames numChannels : Nat) : ℚ :=
  (List.range numFrames).foldl
    (fun currentMax i => max currentMax |monoMixSample buffer numChannels i|) 0

/-- The amplitude path of `SynthEngine::updateAudioAnalysis`
(lines 1229–1234 guard and 1262–1271 loop): when the analysis pipeline
is not allocated or the block is empty, publish 0; otherwise publish
the block's peak mono-mixed amplitude.  The spectral path (windowing,
KissFFT, banded aggregation) depends on the external FFT collaborator
and is not needed by any claim about the amplitude reading. -/
def updateAudioAnalysisAmplitude (st : SynthEngine) (buffer : List ℚ)
    (numFrames numChannels : Nat) : SynthEngine :=
  if st.analysisReady = false ∨ numFrames = 0 ∨ st.fftSize = 0 then
    { st with amplitudeLevel := 0 }
  else
    { st with amplitudeLevel := blockPeakAmplitude buffer numFrames numChannels }

/-- `SynthEngine::getAmplitudeLevel`. -/
def getAmplitudeLevel (st : SynthEngine) : ℚ := st.amplitudeLevel

/-- The wording of the spec sentence behind claim C9: the maximum
absolute value over the block's raw output samples. -/
def rawPeakAmplitude (buffer : List ℚ) : ℚ :=
  buffer.foldl (fun currentMax x => max currentMax |x|) 0

/-! ## Concrete states for instantiations -/

/-- The oscillator list built by `initializeDefaultModules`
(`synth_engine.cpp` lines 798–816): two wavetable oscillators, sine and
square, with the volumes and detune pushed there (enum values of the
external `Oscillator::WaveformType` taken as 0 and 1). -/
def defaultOscillators : List OscState :=
  [ { otype := 0, frequency := 0, detune := 0, volume := 1 / 2, pan := 0
      isWavetable := true, selectedWavetable := none, wavetablePosition := 0 },
    { otype := 1, frequency := 0, detune := 5, volume := 3 / 10, pan := 0
      isWavetable := true, selectedWavetable := none, wavetablePosition := 0 } ]

/-- The engine state right after a successful
`initialize(sampleRate, bufferSize, initialVolume)`
(`synth_engine.cpp` lines 45–100 plus `initializeDefaultModules`):
default modules constructed, caches empty, XY pads bound to filter
cutoff/resonance, analysis allocated.  `expVal` stands for the opaque
exponential feeding the master-volume smoothing coefficient. -/
def initState (sampleRate bufferSize : Int) (initialVolume expVal : ℚ) :
    SynthEngine :=
  { initialized := true
    sampleRate := sampleRate
    bufferSize := bufferSize
    modules :=
      { masterVolume :=
          ((SmoothedParameterF.setCurrentAndTarget ⟨0, 0, 1⟩ initialVolume).setSmoothingTime
            20 sampleRate expVal)
        masterMute := false
        oscillators := defaultOscillators
        filter := some { cutoff := 1000, resonance := 1 / 2, ftype := 0 }
        envelope := some { attack := 1 / 100, decay := 1 / 10, sustain := 7 / 10
                           release := 1 / 2, stage := EnvStage.idle, noteVelocity := 0 }
        delay := some { time := 1 / 2, feedback := 3 / 10, mix := 1 / 5 }
        reverb := some { roomSize := 1 / 2, damping := 1 / 2, mix := 1 / 5 }
        granularSynth := some { grainRate := 0, grainDuration := 0, position := 0
                                pitch := 0, amplitude := 0, positionVar := 0
                                pitchVar := 0, durationVar := 0, pan := 0
                                panVar := 0, windowType := 0 }
        wavetableTableCount := 0 }
    activeNotes := []
    parameterCache := []
    midiLearnActive := false
    parameterIdToLearn := -1
    ccToParameterMap := []
    lastCcValue := []
    isRecordingAutomation := false
    isPlayingAutomation := false
    automationRecordStartTime := 0
    recordedAutomation := []
    automationPlaybackIndices := []
    currentUiTargetPanelId := 0
    currentXYPadXParameterId := SynthParameterId.filterCutoff
    currentXYPadYParameterId := SynthParameterId.filterResonance
    fftSize := 2048
    analysisReady := true
    amplitudeLevel := 0 }

/-- A concrete freshly initialized engine used by the instantiation
theorems: 44.1 kHz, 512-sample buffers, initial volume 0.75. -/
def testEngine : SynthEngine := initState 44100 512 (3 / 4) (1 / 2)

/-- An engine whose X pad axis has been (mis)assigned to the X pad
passthrough identifier itself — a configuration the public API allows. -/
def selfPadEngine : SynthEngine :=
  setXYPadXParameter testEngine SynthParameterId.xyPadXValue

/-- The test engine with automation recording started at time 0. -/
def recordingEngine : SynthEngine := startAutomationRecording testEngine 0

/-- The round-trip scenario's source engine: a fresh engine on which
the filter cutoff (id 10) is set to 500, the reverb mix (id 30) to
0.25, and CC 7 is bound to parameter 10 through MIDI-learn. -/
def roundtripSourceEngine : Option SynthEngine :=
  (setParameterAux 2 testEngine 10 500 false 0).bind fun r1 =>
  (setParameterAux 2 r1.2 30 (1 / 4) false 0).bind fun r2 =>
  (processMidiEvent 2 (startMidiLearn r2.2 10) 176 7 64 0).map fun r3 => r3.2

/-- The round-trip scenario: export a preset from
`roundtripSourceEngine` and import it into a fresh engine instance,
then read back parameter 10, parameter 30 and the CC 7 binding. -/
def roundtripReadback : Option (ℚ × ℚ × Option Int) :=
  roundtripSourceEngine.bind fun e1 =>
  (applyPresetData 2 testEngine (getCurrentPresetData e1 "roundtrip") 0).map fun r =>
  (getParameter r.2 10, getParameter r.2 30, alLookup 7 r.2.ccToParameterMap)

/-- The mapping-table shape asserted by the spec's "at most one CC maps
to a given parameter" invariant: no two distinct CC numbers look up to
the same parameter identifier. -/
def ccMapInjective (m : List (Int × Int)) : Prop :=
  ∀ c1 c2 p, alLookup c1 m = some p → alLookup c2 m = some p → c1 = c2

/-! ## Lemmas about the association-list maps -/

@[simp] theorem alLookup_nil {α : Type} (k : Int) :
    alLookup (α := α) k [] = none := rfl

@[simp] theorem alLookup_cons {α : Type} (k k' : Int) (v : α) (l : List (Int × α)) :
    alLookup k ((k', v) :: l) = if k' = k then some v else alLookup k l := rfl

theorem alLookup_alInsert {α : Type} (k j : Int) (v : α) (l : List (Int × α)) :
    alLookup k (alInsert j v l) = if j = k then some v else alLookup k l := by
  induction l with
  | nil => simp [alInsert]
  | cons hd tl ih =>
    obtain ⟨k', v'⟩ := hd
    by_cases hkj : k' = j
    · subst hkj
      by_cases hk : k' = k <;> simp [alInsert, hk]
    · by_cases hk : k' = k
      · subst hk
        have : ¬ j = k' := fun h => hkj h.symm
        simp [alInsert, hkj, this]
      · simp [alInsert, hkj, hk, ih]

theorem alLookup_alEraseVal (c v : Int) (l : List (Int × Int)) :
    alLookup c (alEraseVal v l) ≠ some v := by
  induction l with
  | nil => simp [alEraseVal]
  | cons hd tl ih =>
    obtain ⟨k', v'⟩ := hd
    by_cases hv : v' = v
    · simpa [alEraseVal, hv] using ih
    · by_cases hk : k' = c
      · simp only [alEraseVal, if_neg hv, alLookup_cons, if_pos hk]
        intro h
        exact hv (Option.some.inj h)
      · simpa [alEraseVal, hv, hk] using ih

theorem alLookup_eq_none_of_not_mem {α : Type} (c : Int) (l : List (Int × α))
    (h : c ∉ alKeys l) : alLookup c l = none := by
  induction l with
  | nil => rfl
  | cons hd tl ih =>
    obtain ⟨k', v'⟩ := hd
    have hne : k' ≠ c := fun he => h (by simp [alKeys, he])
    have htl : c ∉ alKeys tl := fun hm => h (by simp [alKeys] at hm ⊢; right; exact hm)
    simp [hne, ih htl]

theorem alEraseVal_sublist (v : Int) (l : List (Int × Int)) :
    List.Sublist (alEraseVal v l) l := by
  induction l with
  | nil => simp [alEraseVal]
  | cons hd tl ih =>
    obtain ⟨k', v'⟩ := hd
    by_cases hv : v' = v
    · simpa [alEraseVal, hv] using ih.cons _
    · simpa [alEraseVal, hv] using ih.cons₂ (k', v')

theorem alWF_alEraseVal (v : Int) (l : List (Int × Int)) (h : alWF l) :
    alWF (alEraseVal v l) :=
  ((alEraseVal_sublist v l).map Prod.fst).nodup h

theorem mem_alKeys_alInsert {α : Type} (x k : Int) (v : α) (l : List (Int × α)) :
    x ∈ alKeys (alInsert k v l) ↔ x = k ∨ x ∈ alKeys l := by
  induction l with
  | nil => simp [alInsert, alKeys]
  | cons hd tl ih =>
    obtain ⟨k', v'⟩ := hd
    by_cases hk : k' = k
    · subst hk
      simp [alInsert, alKeys]
    · simp only [alInsert, if_neg hk, alKeys, List.map_cons, List.mem_cons]
      rw [show (List.map Prod.fst (alInsert k v tl)) = alKeys (alInsert k v tl) from rfl,
        ih]
      simp [alKeys]
      tauto

theorem alWF_alInsert {α : Type} (k : Int) (v : α) (l : List (Int × α))
    (h : alWF l) : alWF (alInsert k v l) := by
  induction l with
  | nil => simp [alInsert, alWF, alKeys]
  | cons hd tl ih =>
    obtain ⟨k', v'⟩ := hd
    have h1 : k' ∉ alKeys tl := by
      intro hm
      exact (List.nodup_cons.mp h).1 hm
    have h2 : alWF tl := (List.nodup_cons.mp h).2
    by_cases hk : k' = k
    · subst hk
      simpa [alInsert, alWF, alKeys] using List.nodup_cons.mp h
    · have : k' ∉ alKeys (alInsert k v tl) := by
        rw [mem_alKeys_alInsert]
        rintro (rfl | hm)
        · exact hk rfl
        · exact h1 hm
      simp only [alInsert, if_neg hk]
      exact List.nodup_cons.mpr ⟨this, ih h2⟩

theorem alLookup_alEraseVal_of_ne (c v : Int) (l : List (Int × Int)) (w : Int)
    (hwf : alWF l) :
    alLookup c (alEraseVal v l) = some w → alLookup c l = some w := by
  induction l with
  | nil => simp [alEraseVal]
  | cons hd tl ih =>
    obtain ⟨k', v'⟩ := hd
    have h1 : k' ∉ alKeys tl := (List.nodup_cons.mp hwf).1
    have h2 : alWF tl := (List.nodup_cons.mp hwf).2
    by_cases hv : v' = v
    · by_cases hk : k' = c
      · intro h
        simp only [alEraseVal, if_pos hv] at h
        have hmem : c ∉ alKeys (alEraseVal v tl) := by
          intro hm
          apply h1
          rw [hk]
          exact ((alEraseVal_sublist v tl).map Prod.fst).subset hm
        rw [alLookup_eq_none_of_not_mem c _ hmem] at h
        exact absurd h (by simp)
      · intro h
        simp only [alEraseVal, if_pos hv] at h
        simp only [alLookup_cons, if_neg hk]
        exact ih h2 h
    · by_cases hk : k' = c
      · intro h
        simp only [alEraseVal, if_neg hv, alLookup_cons, if_pos hk] at h ⊢
        exact h
      · intro h
        simp only [alEraseVal, if_neg hv, alLookup_cons, if_neg hk] at h ⊢
        exact ih h2 h

/-- Installing a learned mapping — erase every binding to the learned
parameter, then bind the new CC to it — preserves the at-most-one-CC
shape. -/
theorem ccMapInjective_learn (m : List (Int × Int)) (cc p : Int)
    (hwf : alWF m) (hinj : ccMapInjective m) :
    ccMapInjective (alInsert cc p (alEraseVal p m)) := by
  intro c1 c2 q h1 h2
  by_cases hq : q = p
  · subst hq
    have hc1 : c1 = cc := by
      by_contra hne
      rw [alLookup_alInsert] at h1
      rw [if_neg (fun h => hne h.symm)] at h1
      exact alLookup_alEraseVal c1 q _ h1
    have hc2 : c2 = cc := by
      by_contra hne
      rw [alLookup_alInsert] at h2
      rw [if_neg (fun h => hne h.symm)] at h2
      exact alLookup_alEraseVal c2 q _ h2
    rw [hc1, hc2]
  · have hc1 : c1 ≠ cc := by
      rintro rfl
      rw [alLookup_alInsert, if_pos rfl] at h1
      exact hq (Option.some.inj h1).symm
    have hc2 : c2 ≠ cc := by
      rintro rfl
      rw [alLookup_alInsert, if_pos rfl] at h2
      exact hq (Option.some.inj h2).symm
    rw [alLookup_alInsert, if_neg (fun h => hc1 h.symm)] at h1
    rw [alLookup_alInsert, if_neg (fun h => hc2 h.symm)] at h2
    exact hinj c1 c2 q (alLookup_alEraseVal_of_ne c1 p m q hwf h1)
      (alLookup_alEraseVal_of_ne c2 p m q hwf h2)

/-! ## Lemmas about the smoother -/

/-- Whatever `expVal` the exponential produces, `setSmoothingTime`
leaves `alpha` inside `[0, 1]` — the hypothesis used by the smoothing
claims. -/
theorem setSmoothingTime_alpha_mem (s : SmoothedParameterF) (timeMs : ℚ)
    (sr : Int) (expVal : ℚ) :
    0 ≤ (s.setSmoothingTime timeMs sr expVal).alpha ∧
      (s.setSmoothingTime timeMs sr expVal).alpha ≤ 1 := by
  unfold SmoothedParameterF.setSmoothingTime
  split
  · constructor <;> norm_num
  · split
    · constructor <;> norm_num
    · dsimp only
      constructor
      · split
        · split <;> norm_num
        · split
          · norm_num
          · linarith [not_lt.mp (by assumption : ¬ (1 - expVal) < 0)]
      · split
        · split <;> norm_num
        · split
          · norm_num
          · linarith [not_lt.mp (by assumption : ¬ 1 < 1 - expVal)]

/-! ## Frame lemmas for the parameter router -/

theorem setParameterPre_parameterCache (st : SynthEngine) (id : Int) (v : ℚ)
    (fa : Bool) (now : ℚ) :
    (setParameterPre st id v fa now).parameterCache =
      alInsert id v st.parameterCache := by
  unfold setParameterPre
  split <;> rfl

theorem setParameterPre_frame (st : SynthEngine) (id : Int) (v : ℚ)
    (fa : Bool) (now : ℚ) :
    (setParameterPre st id v fa now).initialized = st.initialized ∧
    (setParameterPre st id v fa now).ccToParameterMap = st.ccToParameterMap ∧
    (setParameterPre st id v fa now).currentXYPadXParameterId = st.currentXYPadXParameterId ∧
    (setParameterPre st id v fa now).currentXYPadYParameterId = st.currentXYPadYParameterId ∧
    (setParameterPre st id v fa now).isRecordingAutomation = st.isRecordingAutomation ∧
    (setParameterPre st id v fa now).automationRecordStartTime = st.automationRecordStartTime ∧
    (setParameterPre st id v fa now).midiLearnActive = st.midiLearnActive ∧
    (setParameterPre st id v fa now).parameterIdToLearn = st.parameterIdToLearn := by
  unfold setParameterPre
  split <;> exact ⟨rfl, rfl, rfl, rfl, rfl, rfl, rfl, rfl⟩

theorem setParameterPre_recordedAutomation_replay (st : SynthEngine)
    (id : Int) (v : ℚ) (now : ℚ) :
    (setParameterPre st id v true now).recordedAutomation =
      st.recordedAutomation := by
  unfold setParameterPre
  simp

theorem setParameterPre_recordedAutomation_record (st : SynthEngine)
    (id : Int) (v : ℚ) (now : ℚ) (hrec : st.isRecordingAutomation = true) :
    (setParameterPre st id v false now).recordedAutomation =
      alAppendEvent id ⟨id, v, now - st.automationRecordStartTime⟩
        st.recordedAutomation := by
  unfold setParameterPre
  simp [hrec]

theorem setParameterPre_recordedAutomation_idle (st : SynthEngine)
    (id : Int) (v : ℚ) (fa : Bool) (now : ℚ)
    (hrec : st.isRecordingAutomation = false) :
    (setParameterPre st id v fa now).recordedAutomation =
      st.recordedAutomation := by
  unfold setParameterPre
  simp [hrec]

theorem dispatchParameter_frame (st : SynthEngine) (id : Int) (v : ℚ) :
    (dispatchParameter st id v).2.parameterCache = st.parameterCache ∧
    (dispatchParameter st id v).2.recordedAutomation = st.recordedAutomation ∧
    (dispatchParameter st id v).2.initialized = st.initialized ∧
    (dispatchParameter st id v).2.ccToParameterMap = st.ccToParameterMap ∧
    (dispatchParameter st id v).2.currentXYPadXParameterId = st.currentXYPadXParameterId ∧
    (dispatchParameter st id v).2.currentXYPadYParameterId = st.currentXYPadYParameterId ∧
    (dispatchParameter st id v).2.isRecordingAutomation = st.isRecordingAutomation ∧
    (dispatchParameter st id v).2.automationRecordStartTime = st.automationRecordStartTime ∧
    (dispatchParameter st id v).2.midiLearnActive = st.midiLearnActive ∧
    (dispatchParameter st id v).2.parameterIdToLearn = st.parameterIdToLearn :=
  ⟨rfl, rfl, rfl, rfl, rfl, rfl, rfl, rfl, rfl, rfl⟩

theorem setParameterAux_frame : ∀ (fuel : Nat) (st : SynthEngine) (id : Int)
    (v : ℚ) (fa : Bool) (now : ℚ) (b : Bool) (st' : SynthEngine),
    setParameterAux fuel st id v fa now = some (b, st') →
    st'.initialized = st.initialized ∧
    st'.ccToParameterMap = st.ccToParameterMap ∧
    st'.currentXYPadXParameterId = st.currentXYPadXParameterId ∧
    st'.currentXYPadYParameterId = st.currentXYPadYParameterId ∧
    st'.isRecordingAutomation = st.isRecordingAutomation ∧
    st'.automationRecordStartTime = st.automationRecordStartTime ∧
    st'.midiLearnActive = st.midiLearnActive ∧
    st'.parameterIdToLearn = st.parameterIdToLearn := by
  intro fuel
  induction fuel with
  | zero =>
    intro st id v fa now b st' h
    exact absurd h (by simp [setParameterAux])
  | succ n ih =>
    intro st id v fa now b st' h
    rw [setParameterAux] at h
    by_cases hinit : st.initialized = false
    · rw [if_pos hinit] at h
      injection h with h1
      injection h1 with hb hst
      subst hst
      exact ⟨rfl, rfl, rfl, rfl, rfl, rfl, rfl, rfl⟩
    · rw [if_neg hinit] at h
      dsimp only at h
      obtain ⟨f1, f2, f3, f4, f5, f6, f7, f8⟩ :=
        setParameterPre_frame st id v fa now
      by_cases hx : id = SynthParameterId.xyPadXValue
      · rw [if_pos hx] at h
        obtain ⟨g1, g2, g3, g4, g5, g6, g7, g8⟩ := ih _ _ _ _ _ _ _ h
        exact ⟨g1.trans f1, g2.trans f2, g3.trans f3, g4.trans f4,
          g5.trans f5, g6.trans f6, g7.trans f7, g8.trans f8⟩
      · rw [if_neg hx] at h
        by_cases hy : id = SynthParameterId.xyPadYValue
        · rw [if_pos hy] at h
          obtain ⟨g1, g2, g3, g4, g5, g6, g7, g8⟩ := ih _ _ _ _ _ _ _ h
          exact ⟨g1.trans f1, g2.trans f2, g3.trans f3, g4.trans f4,
            g5.trans f5, g6.trans f6, g7.trans f7, g8.trans f8⟩
        · rw [if_neg hy] at h
          have hpair := Option.some.inj h
          have hst : st' = (dispatchParameter
              (setParameterPre st id v fa now) id v).2 :=
            (congrArg Prod.snd hpair).symm
          obtain ⟨_, _, d3, d4, d5, d6, d7, d8, d9, d10⟩ :=
            dispatchParameter_frame (setParameterPre st id v fa now) id v
          subst hst
          exact ⟨d3.trans f1, d4.trans f2, d5.trans f3, d6.trans f4,
            d7.trans f5, d8.trans f6, d9.trans f7, d10.trans f8⟩

theorem setParameterAux_cache : ∀ (fuel : Nat) (st : SynthEngine) (id : Int)
    (v : ℚ) (fa : Bool) (now : ℚ) (b : Bool) (st' : SynthEngine),
    st.initialized = true →
    setParameterAux fuel st id v fa now = some (b, st') →
    alLookup id st'.parameterCache = some v ∧
    ∀ k, alLookup k st'.parameterCache = some v ∨
      alLookup k st'.parameterCache = alLookup k st.parameterCache := by
  intro fuel
  induction fuel with
  | zero =>
    intro st id v fa now b st' _ h
    exact absurd h (by simp [setParameterAux])
  | succ n ih =>
    intro st id v fa now b st' hinit h
    rw [setParameterAux] at h
    rw [if_neg (by simp [hinit])] at h
    dsimp only at h
    have hpreinit : (setParameterPre st id v fa now).initialized = true :=
      (setParameterPre_frame st id v fa now).1.trans hinit
    have hprecache := setParameterPre_parameterCache st id v fa now
    by_cases hx : id = SynthParameterId.xyPadXValue
    · rw [if_pos hx] at h
      obtain ⟨_, hB⟩ := ih _ _ _ _ _ _ _ hpreinit h
      constructor
      · rcases hB id with hc | hc
        · exact hc
        · rw [hc, hprecache, alLookup_alInsert, if_pos rfl]
      · intro k
        rcases hB k with hc | hc
        · exact Or.inl hc
        · rw [hc, hprecache, alLookup_alInsert]
          by_cases hk : id = k
          · rw [if_pos hk]; exact Or.inl rfl
          · rw [if_neg hk]; exact Or.inr rfl
    · rw [if_neg hx] at h
      by_cases hy : id = SynthParameterId.xyPadYValue
      · rw [if_pos hy] at h
        obtain ⟨_, hB⟩ := ih _ _ _ _ _ _ _ hpreinit h
        constructor
        · rcases hB id with hc | hc
          · exact hc
          · rw [hc, hprecache, alLookup_alInsert, if_pos rfl]
        · intro k
          rcases hB k with hc | hc
          · exact Or.inl hc
          · rw [hc, hprecache, alLookup_alInsert]
            by_cases hk : id = k
            · rw [if_pos hk]; exact Or.inl rfl
            · rw [if_neg hk]; exact Or.inr rfl
      · rw [if_neg hy] at h
        have hpair := Option.some.inj h
        have hst : st' = (dispatchParameter
            (setParameterPre st id v fa now) id v).2 :=
          (congrArg Prod.snd hpair).symm
        have hdc := (dispatchParameter_frame (setParameterPre st id v fa now) id v).1
        subst hst
        rw [hdc, hprecache]
        constructor
        · rw [alLookup_alInsert, if_pos rfl]
        · intro k
          rw [alLookup_alInsert]
          by_cases hk : id = k
          · rw [if_pos hk]; exact Or.inl rfl
          · rw [if_neg hk]; exact Or.inr rfl

/-! ## Claim theorems -/

/-- C1: on an initialized engine, whenever `setParameter(id, v)` returns
— with either boolean result, any identifier (passthrough, oscillator
slot out of range, or unrecognized), and any `fromAutomation` flag —
the subsequent `getParameter(id)` returns `v`: the cache write precedes
dispatch, happens regardless of dispatch success, and `getParameter`
consults the cache first. -/
theorem setParameter_then_getParameter (fuel : Nat) (st : SynthEngine)
    (id : Int) (v : ℚ) (fa : Bool) (now : ℚ) (b : Bool) (st' : SynthEngine)
    (hinit : st.initialized = true)
    (h : setParameterAux fuel st id v fa now = some (b, st')) :
    getParameter st' id = v := by
  have hframe := setParameterAux_frame fuel st id v fa now b st' h
  have hcache := setParameterAux_cache fuel st id v fa now b st' hinit h
  have hinit' : st'.initialized = true := hframe.1.trans hinit
  unfold getParameter
  rw [if_neg (by simp [hinit'])]
  rw [hcache.1]

/-- Witness for `setParameter_then_getParameter`: setting the
unrecognized identifier 999 on the freshly initialized test engine
(the dispatch returns `false`) still makes `getParameter 999` read
back 7. -/
theorem setParameter_then_getParameter_witness :
    testEngine.initialized = true ∧
    getParameter { testEngine with parameterCache := [(999, 7)] } 999 = 7 :=
  ⟨rfl, setParameter_then_getParameter 1 testEngine 999 7 false 0 false
    { testEngine with parameterCache := [(999, 7)] } rfl rfl⟩

/-- A call on the X-pad passthrough identifier while the X axis is
assigned to that same identifier never returns, whatever the recursion
budget: the cache/record prefix never changes the axis assignment, so
the recursion rebuilds the same call forever. -/
theorem setParameterAux_none_of_self_pad : ∀ (fuel : Nat) (st : SynthEngine)
    (v : ℚ) (fa : Bool) (now : ℚ),
    st.initialized = true →
    st.currentXYPadXParameterId = SynthParameterId.xyPadXValue →
    setParameterAux fuel st SynthParameterId.xyPadXValue v fa now = none := by
  intro fuel
  induction fuel with
  | zero => intro st v fa now _ _; rfl
  | succ n ih =>
    intro st v fa now hinit hx
    rw [setParameterAux]
    rw [if_neg (by simp [hinit])]
    dsimp only
    rw [if_pos rfl]
    have hpre := setParameterPre_frame st SynthParameterId.xyPadXValue v fa now
    rw [hpre.2.2.1, hx]
    exact ih _ v fa now (hpre.1.trans hinit) (hpre.2.2.1.trans hx)

/-- C3 counterexample: the claim "setParameter terminates for every
pair of XY-pad axis assignments" is false — with the X axis assigned
to the X passthrough identifier itself, `setParameter` on that
identifier returns under no recursion budget. -/
theorem setParameter_self_mapped_pad_diverges :
    ¬ ∃ (fuel : Nat) (b : Bool) (st' : SynthEngine),
      setParameterAux fuel selfPadEngine SynthParameterId.xyPadXValue 1 false 0 =
        some (b, st') := by
  rintro ⟨fuel, b, st', h⟩
  rw [setParameterAux_none_of_self_pad fuel selfPadEngine 1 false 0 rfl rfl] at h
  exact Option.noConfusion h

/-- One step of `setParameter` on a non-passthrough identifier always
returns with fuel 1. -/
theorem setParameterAux_isSome_nonpad (st : SynthEngine) (id : Int) (v : ℚ)
    (fa : Bool) (now : ℚ)
    (hx : id ≠ SynthParameterId.xyPadXValue)
    (hy : id ≠ SynthParameterId.xyPadYValue) :
    (setParameterAux 1 st id v fa now).isSome = true := by
  rw [setParameterAux]
  by_cases hinit : st.initialized = false
  · rw [if_pos hinit]; rfl
  · rw [if_neg hinit]
    dsimp only
    rw [if_neg hx, if_neg hy]
    rfl

/-- C3 amended: `setParameter` terminates (recursion depth at most one)
for every identifier, value and flag, provided neither XY-pad axis is
assigned to a passthrough identifier — the configuration every default
and sane rebinding satisfies; the unguarded self-assignment of the
counterexample is the only way to diverge. -/
theorem setParameter_terminates_of_nonpad_assignments (st : SynthEngine)
    (id : Int) (v : ℚ) (fa : Bool) (now : ℚ)
    (hx1 : st.currentXYPadXParameterId ≠ SynthParameterId.xyPadXValue)
    (hx2 : st.currentXYPadXParameterId ≠ SynthParameterId.xyPadYValue)
    (hy1 : st.currentXYPadYParameterId ≠ SynthParameterId.xyPadXValue)
    (hy2 : st.currentXYPadYParameterId ≠ SynthParameterId.xyPadYValue) :
    (setParameterAux 2 st id v fa now).isSome = true := by
  rw [setParameterAux]
  by_cases hinit : st.initialized = false
  · rw [if_pos hinit]; rfl
  · rw [if_neg hinit]
    dsimp only
    have hpre := setParameterPre_frame st id v fa now
    by_cases hidx : id = SynthParameterId.xyPadXValue
    · rw [if_pos hidx]
      exact setParameterAux_isSome_nonpad _ _ v fa now
        (hpre.2.2.1.symm ▸ hx1) (hpre.2.2.1.symm ▸ hx2)
    · rw [if_neg hidx]
      by_cases hidy : id = SynthParameterId.xyPadYValue
      · rw [if_pos hidy]
        exact setParameterAux_isSome_nonpad _ _ v fa now
          (hpre.2.2.2.1.symm ▸ hy1) (hpre.2.2.2.1.symm ▸ hy2)
      · rw [if_neg hidy]
        rfl

/-- Witness for `setParameter_terminates_of_nonpad_assignments`: the
freshly initialized engine binds the pads to filter cutoff/resonance,
so any call — here on the X passthrough itself — returns. -/
theorem setParameter_terminates_of_nonpad_assignments_witness :
    testEngine.currentXYPadXParameterId ≠ SynthParameterId.xyPadXValue ∧
    (setParameterAux 2 testEngine SynthParameterId.xyPadXValue 1 false 0).isSome = true :=
  ⟨by decide, setParameter_terminates_of_nonpad_assignments testEngine
    SynthParameterId.xyPadXValue 1 false 0
    (by decide) (by decide) (by decide) (by decide)⟩

theorem trackOf_alAppendEvent_self (k : Int) (ev : AutomationEvent)
    (l : List (Int × List AutomationEvent)) :
    trackOf k (alAppendEvent k ev l) = trackOf k l ++ [ev] := by
  induction l with
  | nil => simp [alAppendEvent, trackOf]
  | cons hd tl ih =>
    obtain ⟨k', tr⟩ := hd
    by_cases hk : k' = k
    · simp [alAppendEvent, trackOf, hk]
    · simpa [alAppendEvent, trackOf, hk] using ih

theorem trackOf_alAppendEvent_other (j k : Int) (ev : AutomationEvent)
    (l : List (Int × List AutomationEvent)) (hjk : j ≠ k) :
    trackOf j (alAppendEvent k ev l) = trackOf j l := by
  have hkj : ¬ k = j := fun h => hjk h.symm
  induction l with
  | nil => simp [alAppendEvent, trackOf, hkj]
  | cons hd tl ih =>
    obtain ⟨k', tr⟩ := hd
    by_cases hk : k' = k
    · subst hk
      simp [alAppendEvent, trackOf, hkj]
    · by_cases hj : k' = j
      · subst hj
        simp [alAppendEvent, trackOf, hk, hkj, hjk]
      · simpa [alAppendEvent, trackOf, hk, hj] using ih

theorem totalEventCount_alAppendEvent (k : Int) (ev : AutomationEvent)
    (l : List (Int × List AutomationEvent)) :
    totalEventCount (alAppendEvent k ev l) = totalEventCount l + 1 := by
  induction l with
  | nil => simp [alAppendEvent, totalEventCount]
  | cons hd tl ih =>
    obtain ⟨k', tr⟩ := hd
    by_cases hk : k' = k
    · simp [alAppendEvent, totalEventCount, hk]
      ring
    · simp only [alAppendEvent, if_neg hk, totalEventCount, List.map_cons, List.sum_cons]
      rw [show ((alAppendEvent k ev tl).map (fun p => p.2.length)).sum =
        totalEventCount (alAppendEvent k ev tl) from rfl]
      rw [ih]
      rw [show (tl.map (fun p => p.2.length)).sum = totalEventCount tl from rfl]
      ring

/-- A replay (`fromAutomation = true`) never appends automation events,
through any number of passthrough redirections. -/
theorem setParameterAux_recordedAutomation_replay : ∀ (fuel : Nat)
    (st : SynthEngine) (id : Int) (v : ℚ) (now : ℚ) (b : Bool)
    (st' : SynthEngine),
    setParameterAux fuel st id v true now = some (b, st') →
    st'.recordedAutomation = st.recordedAutomation := by
  intro fuel
  induction fuel with
  | zero =>
    intro st id v now b st' h
    exact absurd h (by simp [setParameterAux])
  | succ n ih =>
    intro st id v now b st' h
    rw [setParameterAux] at h
    by_cases hinit : st.initialized = false
    · rw [if_pos hinit] at h
      injection h with h1
      injection h1 with hb hst
      subst hst
      rfl
    · rw [if_neg hinit] at h
      dsimp only at h
      have hpre := setParameterPre_recordedAutomation_replay st id v now
      by_cases hx : id = SynthParameterId.xyPadXValue
      · rw [if_pos hx] at h
        exact (ih _ _ _ _ _ _ h).trans hpre
      · rw [if_neg hx] at h
        by_cases hy : id = SynthParameterId.xyPadYValue
        · rw [if_pos hy] at h
          exact (ih _ _ _ _ _ _ h).trans hpre
        · rw [if_neg hy] at h
          have hpair := Option.some.inj h
          have hst : st' = (dispatchParameter
              (setParameterPre st id v true now) id v).2 :=
            (congrArg Prod.snd hpair).symm
          subst hst
          exact ((dispatchParameter_frame
            (setParameterPre st id v true now) id v).2.1).trans hpre

/-- C4 counterexample: with recording active and the X pad bound to the
filter cutoff (the default), one `setParameter` call on the X
passthrough identifier appends two events to the automation data — one
in the passthrough's own track and one in the resolved target's track —
not exactly one. -/
theorem setParameter_pad_records_two_events :
    (setParameterAux 2 recordingEngine SynthParameterId.xyPadXValue (1 / 2)
        false 3).map (fun r => totalEventCount r.2.recordedAutomation) = some 2 ∧
    totalEventCount recordingEngine.recordedAutomation = 0 := by
  constructor
  · rfl
  · rfl

/-- C4 amended: while automation recording is active, a
`setParameter(id, v, fromAutomation = false)` call on an initialized
engine with a non-passthrough `id` appends exactly one event to the
automation data, placed in the track keyed by `id`, carrying the value
and the elapsed time since recording started (which is ≥ 0 whenever the
clock has not gone backwards); every other track is untouched.  A call
with `fromAutomation = true` appends nothing, for every identifier
(passthrough included).  For the two passthrough identifiers with
`fromAutomation = false` the call instead appends one event per
traversed identifier (see `setParameter_pad_records_two_events`). -/
theorem setParameter_recording_appends_single_event (fuel : Nat)
    (st : SynthEngine) (id : Int) (v : ℚ) (now : ℚ) (b : Bool)
    (st' : SynthEngine)
    (hinit : st.initialized = true)
    (hrec : st.isRecordingAutomation = true)
    (hx : id ≠ SynthParameterId.xyPadXValue)
    (hy : id ≠ SynthParameterId.xyPadYValue)
    (hnow : st.automationRecordStartTime ≤ now)
    (h : setParameterAux fuel st id v false now = some (b, st')) :
    trackOf id st'.recordedAutomation =
      trackOf id st.recordedAutomation ++
        [⟨id, v, now - st.automationRecordStartTime⟩] ∧
    (∀ k, k ≠ id → trackOf k st'.recordedAutomation =
      trackOf k st.recordedAutomation) ∧
    0 ≤ now - st.automationRecordStartTime ∧
    totalEventCount st'.recordedAutomation =
      totalEventCount st.recordedAutomation + 1 ∧
    (∀ (b2 : Bool) (st2 : SynthEngine),
      setParameterAux fuel st id v true now = some (b2, st2) →
      st2.recordedAutomation = st.recordedAutomation) := by
  have hrecAuto : st'.recordedAutomation =
      alAppendEvent id ⟨id, v, now - st.automationRecordStartTime⟩
        st.recordedAutomation := by
    cases fuel with
    | zero => exact absurd h (by simp [setParameterAux])
    | succ n =>
      rw [setParameterAux] at h
      rw [if_neg (by simp [hinit])] at h
      dsimp only at h
      rw [if_neg hx, if_neg hy] at h
      have hpair := Option.some.inj h
      have hst : st' = (dispatchParameter
          (setParameterPre st id v false now) id v).2 :=
        (congrArg Prod.snd hpair).symm
      subst hst
      exact ((dispatchParameter_frame
        (setParameterPre st id v false now) id v).2.1).trans
        (setParameterPre_recordedAutomation_record st id v now hrec)
  refine ⟨?_, ?_, by linarith, ?_, ?_⟩
  · rw [hrecAuto, trackOf_alAppendEvent_self]
  · intro k hk
    rw [hrecAuto, trackOf_alAppendEvent_other k id _ _ hk]
  · rw [hrecAuto, totalEventCount_alAppendEvent]
  · intro b2 st2 h2
    exact setParameterAux_recordedAutomation_replay fuel st id v now b2 st2 h2

/-- Witness for `setParameter_recording_appends_single_event`: record a
master-volume change at time 3 on the recording test engine. -/
theorem setParameter_recording_appends_single_event_witness :
    trackOf 0 (dispatchParameter
        (setParameterPre recordingEngine 0 (1 / 4) false 3) 0 (1 / 4)).2.recordedAutomation =
      trackOf 0 recordingEngine.recordedAutomation ++ [⟨0, 1 / 4, 3 - 0⟩] ∧
    (∀ k, k ≠ 0 → trackOf k (dispatchParameter
        (setParameterPre recordingEngine 0 (1 / 4) false 3) 0 (1 / 4)).2.recordedAutomation =
      trackOf k recordingEngine.recordedAutomation) ∧
    (0 : ℚ) ≤ 3 - 0 ∧
    totalEventCount (dispatchParameter
        (setParameterPre recordingEngine 0 (1 / 4) false 3) 0 (1 / 4)).2.recordedAutomation =
      totalEventCount recordingEngine.recordedAutomation + 1 ∧
    (∀ (b2 : Bool) (st2 : SynthEngine),
      setParameterAux 1 recordingEngine 0 (1 / 4) true 3 = some (b2, st2) →
      st2.recordedAutomation = recordingEngine.recordedAutomation) := by
  have hcall : setParameterAux 1 recordingEngine 0 (1 / 4) false 3 =
      some (true, (dispatchParameter
        (setParameterPre recordingEngine 0 (1 / 4) false 3) 0 (1 / 4)).2) := rfl
  have hts : recordingEngine.automationRecordStartTime = 0 := rfl
  simpa [hts] using setParameter_recording_appends_single_event 1 recordingEngine
    0 (1 / 4) 3 true _ rfl rfl (by decide) (by decide) (by norm_num [hts]) hcall

/-- C10: on an initialized engine, `noteOff(note)` for a note that is
not in the active-note set returns `true` and leaves the engine —
active-note set and envelope included — completely unchanged: the
envelope release is not triggered. -/
theorem noteOff_inactive_note_noop (st : SynthEngine) (note : Int)
    (hinit : st.initialized = true)
    (habs : alLookup note st.activeNotes = none) :
    noteOff st note = (true, st) := by
  unfold noteOff
  rw [if_neg (by simp [hinit])]
  simp [habs]

/-- Witness for `noteOff_inactive_note_noop`: releasing note 60 on the
fresh test engine, which holds no active notes. -/
theorem noteOff_inactive_note_noop_witness :
    noteOff testEngine 60 = (true, testEngine) :=
  noteOff_inactive_note_noop testEngine 60 rfl rfl

theorem noteOn_ccToParameterMap (st : SynthEngine) (note velocity : Int) :
    (noteOn st note velocity).2.ccToParameterMap = st.ccToParameterMap := by
  unfold noteOn
  split <;> rfl

theorem noteOff_ccToParameterMap (st : SynthEngine) (note : Int) :
    (noteOff st note).2.ccToParameterMap = st.ccToParameterMap := by
  unfold noteOff
  split
  · rfl
  · dsimp only
    split <;> rfl

/-- C6: when MIDI-learn is armed for a parameter `P ≠ -1` and a Control
Change arrives on a channel other than 16, the engine binds that CC
number to `P`, removes any pre-existing binding of a different CC to
`P`, disarms MIDI-learn, and returns `true`. -/
theorem midiLearn_cc_binds_and_disarms (fuel : Nat) (st : SynthEngine)
    (status data1 data2 : Nat) (now : ℚ) (P : Int)
    (hinit : st.initialized = true)
    (hlearn : st.midiLearnActive = true)
    (hP : st.parameterIdToLearn = P)
    (hPne : P ≠ -1)
    (hmsg : status % 256 / 16 = 11)
    (hch : status % 256 % 16 ≠ 15) :
    ∃ st', processMidiEvent fuel st status data1 data2 now = some (true, st') ∧
      alLookup ((data1 % 256 : Nat) : Int) st'.ccToParameterMap = some P ∧
      (∀ c, c ≠ ((data1 % 256 : Nat) : Int) →
        alLookup c st'.ccToParameterMap ≠ some P) ∧
      st'.midiLearnActive = false ∧
      st'.parameterIdToLearn = -1 := by
  refine ⟨stopMidiLearn { st with
      ccToParameterMap :=
        (alInsert ((data1 % 256 : Nat) : Int) P (alEraseVal P st.ccToParameterMap))
      lastCcValue := alInsert ((data1 % 256 : Nat) : Int)
        ((data2 % 256 : Nat) : Int) st.lastCcValue }, ?_, ?_, ?_, rfl, rfl⟩
  · rw [processMidiEvent]
    rw [if_neg (by simp [hinit])]
    dsimp only
    rw [if_neg (fun hc => hch hc.1)]
    rw [hmsg]
    rw [if_neg (by decide), if_neg (by decide), if_neg (by decide),
      if_neg (by decide), if_pos rfl]
    rw [hlearn]
    rw [if_pos rfl]
    rw [hP]
    rw [if_pos hPne]
  · show alLookup _ (alInsert _ P (alEraseVal P st.ccToParameterMap)) = some P
    rw [alLookup_alInsert, if_pos rfl]
  · intro c hc
    show alLookup c (alInsert _ P (alEraseVal P st.ccToParameterMap)) ≠ some P
    rw [alLookup_alInsert, if_neg (fun h => hc h.symm)]
    exact alLookup_alEraseVal c P st.ccToParameterMap

/-- C7: a Control Change on MIDI channel 16 (status byte `0xBF`) on an
initialized engine: CC 32 sets the UI target panel id to the data value
modulo 128 and returns `true`; CC 109 replaces the panel id by its
successor modulo 128 and returns `true`; every other channel-16 CC
returns `true` with the whole engine state — parameter cache, CC
mapping table, module parameters — unchanged, never reaching the sound
path. -/
theorem uiChannel_cc_routing (fuel : Nat) (st : SynthEngine)
    (status data1 data2 : Nat) (now : ℚ)
    (hinit : st.initialized = true)
    (hstatus : status % 256 = 191) :
    (data1 % 256 = 32 →
      processMidiEvent fuel st status data1 data2 now =
        some (true, { st with currentUiTargetPanelId := data2 % 256 % 128 })) ∧
    (data1 % 256 = 109 →
      processMidiEvent fuel st status data1 data2 now =
        some (true, { st with currentUiTargetPanelId :=
          (st.currentUiTargetPanelId + 1) % 128 })) ∧
    (data1 % 256 ≠ 32 → data1 % 256 ≠ 109 →
      processMidiEvent fuel st status data1 data2 now = some (true, st)) := by
  refine ⟨?_, ?_, ?_⟩
  · intro h32
    rw [processMidiEvent]
    rw [if_neg (by simp [hinit])]
    dsimp only
    rw [hstatus, h32]
    rw [if_pos (by decide)]
    rw [if_pos rfl]
  · intro h109
    rw [processMidiEvent]
    rw [if_neg (by simp [hinit])]
    dsimp only
    rw [hstatus, h109]
    rw [if_pos (by decide)]
    rw [if_neg (by decide), if_neg (by decide), if_pos rfl]
  · intro h32 h109
    rw [processMidiEvent]
    rw [if_neg (by simp [hinit])]
    dsimp only
    rw [hstatus]
    rw [if_pos (by decide)]
    rw [if_neg h32]
    by_cases h0 : data1 % 256 = 0
    · rw [if_pos h0]
    · rw [if_neg h0, if_neg h109]
      by_cases hui : (102 ≤ data1 % 256 ∧ data1 % 256 ≤ 108) ∨ data1 % 256 = 110
      · rw [if_pos hui]
      · rw [if_neg hui]

/-- Witness for `uiChannel_cc_routing`: status `0xBF` with CC 32 value
5 on the test engine. -/
theorem uiChannel_cc_routing_witness :
    ((32 : Nat) % 256 = 32 →
      processMidiEvent 1 testEngine 191 32 5 0 =
        some (true, { testEngine with currentUiTargetPanelId := 5 % 256 % 128 })) ∧
    ((32 : Nat) % 256 = 109 →
      processMidiEvent 1 testEngine 191 32 5 0 =
        some (true, { testEngine with currentUiTargetPanelId :=
          (testEngine.currentUiTargetPanelId + 1) % 128 })) ∧
    ((32 : Nat) % 256 ≠ 32 → (32 : Nat) % 256 ≠ 109 →
      processMidiEvent 1 testEngine 191 32 5 0 = some (true, testEngine)) :=
  uiChannel_cc_routing 1 testEngine 191 32 5 0 rfl (by decide)

/-- A preset document whose MIDI-mapping object binds two different CC
numbers to the same parameter — well-formed JSON, so the import
accepts it. -/
def badPreset : SynthPreset :=
  { name := "two ccs one param", parameters := [], midiCcMappings := [(7, 10), (8, 10)] }

/-- The engine state produced by importing `badPreset` into the fresh
test engine. -/
def badPresetImportedEngine : SynthEngine :=
  { testEngine with ccToParameterMap := [(7, 10), (8, 10)] }

/-- C5 counterexample: the claim "in every reachable engine state —
including after preset imports — at most one CC maps to a given
parameter" is false: importing a preset that maps CC 7 and CC 8 to
parameter 10 succeeds and leaves both mappings installed, because
`applyMidiMap` replaces the table verbatim with the imported map. -/
theorem applyPreset_can_violate_cc_uniqueness :
    applyPresetData 1 testEngine badPreset 0 = some (true, badPresetImportedEngine) ∧
    alLookup 7 badPresetImportedEngine.ccToParameterMap = some 10 ∧
    alLookup 8 badPresetImportedEngine.ccToParameterMap = some 10 ∧
    ¬ ccMapInjective badPresetImportedEngine.ccToParameterMap := by
  refine ⟨rfl, rfl, rfl, ?_⟩
  intro hinj
  exact absurd (hinj 7 8 10 rfl rfl) (by decide)

/-- C5 amended: the at-most-one-CC-per-parameter invariant holds in
every state reachable through MIDI processing — `processMidiEvent`
(MIDI-learn included) preserves it, along with the key-uniqueness
representation invariant of the table — but a preset import installs
the imported mapping verbatim and can break it
(see `applyPreset_can_violate_cc_uniqueness`). -/
theorem processMidiEvent_preserves_cc_uniqueness (fuel : Nat)
    (st : SynthEngine) (status data1 data2 : Nat) (now : ℚ) (b : Bool)
    (st' : SynthEngine)
    (hwf : alWF st.ccToParameterMap)
    (hinj : ccMapInjective st.ccToParameterMap)
    (h : processMidiEvent fuel st status data1 data2 now = some (b, st')) :
    alWF st'.ccToParameterMap ∧ ccMapInjective st'.ccToParameterMap := by
  rw [processMidiEvent] at h
  by_cases hinit : st.initialized = false
  · rw [if_pos hinit] at h
    injection h with h1
    injection h1 with hb hst
    subst hst
    exact ⟨hwf, hinj⟩
  · rw [if_neg hinit] at h
    dsimp only at h
    split at h
    · -- channel-16 CC branch: none of its arms touch the mapping table
      split at h
      · injection h with h1
        injection h1 with hb hst
        subst hst
        exact ⟨hwf, hinj⟩
      · split at h
        · injection h with h1
          injection h1 with hb hst
          subst hst
          exact ⟨hwf, hinj⟩
        · split at h
          · injection h with h1
            injection h1 with hb hst
            subst hst
            exact ⟨hwf, hinj⟩
          · split at h
            · injection h with h1
              injection h1 with hb hst
              subst hst
              exact ⟨hwf, hinj⟩
            · injection h with h1
              injection h1 with hb hst
              subst hst
              exact ⟨hwf, hinj⟩
    · -- sound path
      split at h
      · -- note on / note off
        injection h with h1
        have hst : st' = (if 0 < data2 % 256 then
            noteOn st ((data1 % 256 : Nat) : Int) ((data2 % 256 : Nat) : Int)
          else noteOff st ((data1 % 256 : Nat) : Int)).2 :=
          (congrArg Prod.snd h1).symm
        subst hst
        split
        · rw [noteOn_ccToParameterMap]
          exact ⟨hwf, hinj⟩
        · rw [noteOff_ccToParameterMap]
          exact ⟨hwf, hinj⟩
      · split at h
        · -- note off
          injection h with h1
          have hst : st' = (noteOff st ((data1 % 256 : Nat) : Int)).2 :=
            (congrArg Prod.snd h1).symm
          subst hst
          rw [noteOff_ccToParameterMap]
          exact ⟨hwf, hinj⟩
        · split at h
          · -- pitch bend through the router
            rw [(setParameterAux_frame _ _ _ _ _ _ _ _ h).2.1]
            exact ⟨hwf, hinj⟩
          · split at h
            · -- aftertouch through the router
              rw [(setParameterAux_frame _ _ _ _ _ _ _ _ h).2.1]
              exact ⟨hwf, hinj⟩
            · split at h
              · -- control change
                split at h
                · -- MIDI-learn armed
                  split at h
                  · injection h with h1
                    injection h1 with hb hst
                    subst hst
                    exact ⟨alWF_alInsert _ _ _ (alWF_alEraseVal _ _ hwf),
                      ccMapInjective_learn _ _ _ hwf hinj⟩
                  · injection h with h1
                    injection h1 with hb hst
                    subst hst
                    exact ⟨hwf, hinj⟩
                · -- not learning: mapped CC, fallback, or unhandled
                  split at h
                  · -- mapped CC routes through the router
                    split at h
                    · exact absurd h (by simp)
                    · rename_i st1 heq
                      injection h with h1
                      injection h1 with hb hst
                      subst hst
                      have hcc := (setParameterAux_frame _ _ _ _ _ _ _ _ heq).2.1
                      show alWF st1.ccToParameterMap ∧
                        ccMapInjective st1.ccToParameterMap
                      rw [hcc]
                      exact ⟨hwf, hinj⟩
                  · split at h
                    · -- hardcoded CC 7 fallback
                      rw [(setParameterAux_frame _ _ _ _ _ _ _ _ h).2.1]
                      exact ⟨hwf, hinj⟩
                    · split at h
                      · -- hardcoded CC 1 fallback
                        rw [(setParameterAux_frame _ _ _ _ _ _ _ _ h).2.1]
                        exact ⟨hwf, hinj⟩
                      · injection h with h1
                        injection h1 with hb hst
                        subst hst
                        exact ⟨hwf, hinj⟩
              · -- unhandled message type
                injection h with h1
                injection h1 with hb hst
                subst hst
                exact ⟨hwf, hinj⟩

/-- Witness for `processMidiEvent_preserves_cc_uniqueness`: a CC 7
message on channel 1 of the fresh test engine (empty mapping table)
keeps the table's shape. -/
theorem processMidiEvent_preserves_cc_uniqueness_witness :
    alWF (dispatchParameter (setParameterPre testEngine 0 (64 / 127) false 0)
      0 (64 / 127)).2.ccToParameterMap ∧
    ccMapInjective (dispatchParameter (setParameterPre testEngine 0 (64 / 127) false 0)
      0 (64 / 127)).2.ccToParameterMap :=
  processMidiEvent_preserves_cc_uniqueness 1 testEngine 176 7 64 0 true
    (dispatchParameter (setParameterPre testEngine 0 (64 / 127) false 0)
      0 (64 / 127)).2
    (by simp [testEngine, initState, alWF, alKeys])
    (fun c1 c2 p h1 h2 => absurd h1 (by simp [testEngine, initState]))
    rfl

/-- C8: exporting a preset after setting parameters
`{10 : 500, 30 : 0.25}` and binding CC 7 to parameter 10, then
importing the exported document into a fresh engine instance, yields
`getParameter(10) = 500`, `getParameter(30) = 0.25`, and a mapping
table in which CC 7 maps to parameter 10. -/
theorem preset_roundtrip_restores_state :
    roundtripReadback = some (500, 1 / 4, some 10) := by
  rfl

theorem foldl_range_getD (l : List ℚ) : ∀ a : ℚ,
    (List.range l.length).foldl (fun m i => max m |l.getD i 0|) a =
      l.foldl (fun m x => max m |x|) a := by
  induction l with
  | nil => intro a; rfl
  | cons x xs ih =>
    intro a
    rw [List.length_cons, List.range_succ_eq_map]
    rw [List.foldl_cons, List.foldl_map]
    simp only [List.getD_cons_zero, List.getD_cons_succ]
    exact ih (max a |x|)

/-- C9 counterexample: the published amplitude reading is not the
maximum absolute value over the block's raw output samples for
multi-channel blocks — a one-frame stereo block `[1, -1]` mono-mixes
to 0, so the reading is 0 while the raw peak is 1. -/
theorem amplitude_not_raw_peak_for_stereo :
    getAmplitudeLevel (updateAudioAnalysisAmplitude testEngine [1, -1] 1 2) = 0 ∧
    rawPeakAmplitude [1, -1] = 1 ∧
    getAmplitudeLevel (updateAudioAnalysisAmplitude testEngine [1, -1] 1 2) ≠
      rawPeakAmplitude [1, -1] := by
  have hmono : monoMixSample [1, -1] 2 0 = 0 := by
    rw [monoMixSample]
    norm_num
  have hblock : blockPeakAmplitude [1, -1] 1 2 = 0 := by
    unfold blockPeakAmplitude
    rw [show List.range 1 = [0] from rfl]
    rw [List.foldl_cons, List.foldl_nil, hmono]
    norm_num
  have hread : getAmplitudeLevel
      (updateAudioAnalysisAmplitude testEngine [1, -1] 1 2) = 0 := by
    unfold getAmplitudeLevel updateAudioAnalysisAmplitude
    rw [if_neg (by norm_num [testEngine, initState])]
    exact hblock
  have hraw : rawPeakAmplitude [1, -1] = 1 := by
    unfold rawPeakAmplitude
    rw [List.foldl_cons, List.foldl_cons, List.foldl_nil]
    norm_num
  refine ⟨hread, hraw, ?_⟩
  rw [hread, hraw]
  norm_num

/-- C9 amended: after an analysis update over an output block, the
published amplitude reading equals the maximum absolute value over the
block's *mono-mixed* samples; for a single-channel block that is
exactly the maximum absolute value over the raw output samples, as
claimed, while multi-channel blocks average the first two channels
per frame before taking the maximum
(see `amplitude_not_raw_peak_for_stereo`). -/
theorem amplitude_equals_raw_peak_mono (st : SynthEngine) (buffer : List ℚ)
    (numFrames : Nat)
    (hready : st.analysisReady = true)
    (hfft : st.fftSize ≠ 0)
    (hframes : numFrames ≠ 0)
    (hlen : buffer.length = numFrames) :
    getAmplitudeLevel (updateAudioAnalysisAmplitude st buffer numFrames 1) =
      rawPeakAmplitude buffer := by
  unfold getAmplitudeLevel updateAudioAnalysisAmplitude
  rw [if_neg (by simp [hready, hframes, hfft])]
  show blockPeakAmplitude buffer numFrames 1 = rawPeakAmplitude buffer
  unfold blockPeakAmplitude rawPeakAmplitude
  rw [← hlen]
  have hfun : (fun (m : ℚ) (i : Nat) => max m |monoMixSample buffer 1 i|) =
      (fun (m : ℚ) (i : Nat) => max m |buffer.getD i 0|) := by
    funext m i
    rw [monoMixSample, if_pos rfl]
  rw [hfun]
  exact foldl_range_getD buffer 0

/-- Witness for `amplitude_equals_raw_peak_mono`: a two-frame mono
block on the test engine. -/
theorem amplitude_equals_raw_peak_mono_witness :
    getAmplitudeLevel (updateAudioAnalysisAmplitude testEngine [1 / 2, -2] 2 1) =
      rawPeakAmplitude [1 / 2, -2] :=
  amplitude_equals_raw_peak_mono testEngine [1 / 2, -2] 2 rfl
    (by decide) (by decide) rfl

/-- Witness for `midiLearn_cc_binds_and_disarms`: arm learn for
parameter 10 on the test engine, then send CC 7 on channel 1. -/
theorem midiLearn_cc_binds_and_disarms_witness :
    ∃ st', processMidiEvent 1 (startMidiLearn testEngine 10) 176 7 64 0 =
        some (true, st') ∧
      alLookup ((7 % 256 : Nat) : Int) st'.ccToParameterMap = some 10 ∧
      (∀ c, c ≠ ((7 % 256 : Nat) : Int) →
        alLookup c st'.ccToParameterMap ≠ some 10) ∧
      st'.midiLearnActive = false ∧
      st'.parameterIdToLearn = -1 :=
  midiLearn_cc_binds_and_disarms 1 (startMidiLearn testEngine 10) 176 7 64 0 10
    rfl rfl rfl (by decide) (by decide) (by decide)

/-- C2: on a `SmoothedParameter`, `setTarget(v)` never changes
`currentValue`, and each per-sample `getNextValue` advance keeps the
target, moves `currentValue` toward the target monotonically in the
direction of `target - current` without overshooting (shrinking the
residual by the factor `1 - alpha`), and snaps exactly to the target
once the residual is below the epsilon `0.00001`.  The coefficient
hypothesis `0 ≤ alpha ≤ 1` is established for every coefficient the
code can compute by `setSmoothingTime_alpha_mem`. -/
theorem smoothedParameter_contract (s : SmoothedParameterF) (v : ℚ)
    (h0 : 0 ≤ s.alpha) (h1 : s.alpha ≤ 1) :
    (s.setTarget v).currentValue = s.currentValue ∧
    (s.getNextValue).2.targetValue = s.targetValue ∧
    (s.currentValue ≤ s.targetValue →
      s.currentValue ≤ (s.getNextValue).2.currentValue ∧
        (s.getNextValue).2.currentValue ≤ s.targetValue) ∧
    (s.targetValue ≤ s.currentValue →
      s.targetValue ≤ (s.getNextValue).2.currentValue ∧
        (s.getNextValue).2.currentValue ≤ s.currentValue) ∧
    |s.targetValue - (s.getNextValue).2.currentValue| ≤
      (1 - s.alpha) * |s.targetValue - s.currentValue| ∧
    (|s.targetValue - s.currentValue| < SmoothedParameterF.epsilonF →
      (s.getNextValue).2.currentValue = s.targetValue) := by
  refine ⟨rfl, ?_, ?_, ?_, ?_, ?_⟩ <;>
    unfold SmoothedParameterF.getNextValue
  · split <;> rfl
  · intro hct
    split
    · exact ⟨hct, le_refl _⟩
    · dsimp only
      constructor
      · nlinarith
      · nlinarith
  · intro htc
    split
    · exact ⟨le_refl _, htc⟩
    · dsimp only
      constructor
      · nlinarith
      · nlinarith
  · split
    · dsimp only
      rw [sub_self, abs_zero]
      exact mul_nonneg (by linarith) (abs_nonneg _)
    · dsimp only
      have hkey : s.targetValue -
          (s.currentValue + (s.targetValue - s.currentValue) * s.alpha) =
          (1 - s.alpha) * (s.targetValue - s.currentValue) := by ring
      rw [hkey, abs_mul, abs_of_nonneg (by linarith : (0 : ℚ) ≤ 1 - s.alpha)]
  · intro hsnap
    rw [if_pos hsnap]

/-- Witness for `smoothedParameter_contract`: a concrete smoother
halfway between 0 and 1 with coefficient 1/2. -/
theorem smoothedParameter_contract_witness :
    (SmoothedParameterF.setTarget ⟨0, 1, 1 / 2⟩ 2).currentValue = 0 ∧
    ((⟨0, 1, 1 / 2⟩ : SmoothedParameterF).getNextValue).2.targetValue = 1 ∧
    ((0 : ℚ) ≤ 1 →
      (0 : ℚ) ≤ ((⟨0, 1, 1 / 2⟩ : SmoothedParameterF).getNextValue).2.currentValue ∧
        ((⟨0, 1, 1 / 2⟩ : SmoothedParameterF).getNextValue).2.currentValue ≤ 1) ∧
    ((1 : ℚ) ≤ 0 →
      (1 : ℚ) ≤ ((⟨0, 1, 1 / 2⟩ : SmoothedParameterF).getNextValue).2.currentValue ∧
        ((⟨0, 1, 1 / 2⟩ : SmoothedParameterF).getNextValue).2.currentValue ≤ 0) ∧
    |(1 : ℚ) - ((⟨0, 1, 1 / 2⟩ : SmoothedParameterF).getNextValue).2.currentValue| ≤
      (1 - 1 / 2) * |(1 : ℚ) - 0| ∧
    (|(1 : ℚ) - 0| < SmoothedParameterF.epsilonF →
      ((⟨0, 1, 1 / 2⟩ : SmoothedParameterF).getNextValue).2.currentValue = 1) :=
  smoothedParameter_contract ⟨0, 1, 1 / 2⟩ 2 (by norm_num) (by norm_num)

end Synther
